import Mathlib

/-!
Verification of the CL-POS checkout / sale-status inventory logic.

This file shallowly embeds the parts of the CL-POS point-of-sale
application that carry its business rules:

* `app/models.py`: `Product.calculate_inventory_deduction`,
  `Product.get_price_for_unit`, `Product.calculated_unit_price`,
  `SaleItem.inventory_deducted`;
* `app/pos.py`: the `checkout` request handler and the
  `update_sale_status` request handler.

Modelling conventions:

* Python `Decimal` and `float` values are modelled as exact rationals
  (`ℚ`).  `Decimal('0.5')` and `Decimal('0.25')` are exactly `1/2` and
  `1/4`; `Decimal` division is modelled by total rational division
  (Python raises `DivisionByZero` on a zero divisor, a path no theorem
  below relies on, and otherwise rounds to the active 28-digit context
  only when the quotient does not terminate).
* Python truthiness of a nullable numeric column (`if self.unit_price:`)
  is `≠ none` and `≠ 0`, and is embedded as such.
* The ORM identity map (two lookups of the same primary key yield the
  same mutable object) is embedded by keying product state on the
  product id and re-reading the store at each access.
* The database session is embedded explicitly as a durable snapshot plus
  a current (staged) snapshot and a commit counter: `stage` edits the
  current snapshot, `commit` publishes it, `rollback` discards it.
  A request handler's durable effect is the durable snapshot it leaves.
-/

namespace CLPOS

/-- Embedding of the `Product` model (`app/models.py`), restricted to the
columns the POS business rules read or write.  `units_per_pack` is a
non-nullable integer column; `half_price` and `unit_price` are nullable. -/
structure Product where
  purchase_price : ℚ
  full_price : ℚ
  half_price : Option ℚ
  unit_price : Option ℚ
  units_per_pack : Int
  quantity : ℚ
deriving DecidableEq

/-- Embedding of `Product.calculate_inventory_deduction` (models.py lines
291-325).  The Python guard `if self.units_per_pack and self.units_per_pack > 0`
is truthiness (`≠ 0`) conjoined with positivity. -/
def Product.calculate_inventory_deduction (self : Product) (quantity : ℚ)
    (unit_type : String) : ℚ :=
  if unit_type = "full" then
    quantity
  else if unit_type = "half" then
    quantity * (1 / 2 : ℚ)
  else if unit_type = "quarter" then
    quantity * (1 / 4 : ℚ)
  else if unit_type = "unit" then
    if self.units_per_pack ≠ 0 ∧ 0 < self.units_per_pack then
      quantity / (self.units_per_pack : ℚ)
    else
      quantity
  else
    quantity

/-- Embedding of the property `Product.calculated_unit_price` (models.py
lines 368-374): `if self.unit_price: return self.unit_price` then
`return self.full_price / Decimal(str(self.units_per_pack))`. -/
def Product.calculated_unit_price (self : Product) : ℚ :=
  match self.unit_price with
  | some u => if u ≠ 0 then u else self.full_price / (self.units_per_pack : ℚ)
  | none => self.full_price / (self.units_per_pack : ℚ)

/-- Embedding of `Product.get_price_for_unit` (models.py lines 249-259). -/
def Product.get_price_for_unit (self : Product) (unit_type : String) : ℚ :=
  if unit_type = "unit" then
    self.calculated_unit_price
  else if unit_type = "half" then
    match self.half_price with
    | some h => if h ≠ 0 then h else self.full_price / (2 : ℚ)
    | none => self.full_price / (2 : ℚ)
  else if unit_type = "quarter" then
    self.full_price / (4 : ℚ)
  else
    self.full_price

/-- Embedding of the `SaleItem` model (`app/models.py`), restricted to the
columns the POS business rules read or write. -/
structure SaleItem where
  product_id : Nat
  quantity : ℚ
  unit_type : String
  price_at_sale : ℚ
  cost_at_sale : ℚ
deriving DecidableEq

/-- Embedding of the property `SaleItem.inventory_deducted` (models.py lines
503-513).  The related product (`self.product`) is passed explicitly; the
Python `float` arithmetic is modelled by exact rationals. -/
def SaleItem.inventory_deducted (self : SaleItem) (product : Product) : ℚ :=
  if self.unit_type = "unit" then
    self.quantity / (product.units_per_pack : ℚ)
  else if self.unit_type = "half" then
    self.quantity * (1 / 2 : ℚ)
  else if self.unit_type = "quarter" then
    self.quantity * (1 / 4 : ℚ)
  else
    self.quantity

/-- Embedding of the `Sale` model (`app/models.py`), restricted to the
columns the POS business rules read or write; the `sale_items`
relationship is carried inline. -/
structure Sale where
  clerk_id : Nat
  total_amount : ℚ
  total_profit : ℚ
  payment_method : String
  amount_paid : ℚ
  change_given : ℚ
  status : String
  sale_items : List SaleItem
deriving DecidableEq

/-! ### The `update_sale_status` handler (pos.py lines 275-319)

The handler mutates only product quantities and the sale's status, so its
state is embedded as a total map from product id to `Product` (the
`SaleItem.product_id` foreign key is non-nullable, hence every sale item's
product exists).  The handler either reaches `db.session.commit()` —
embedded as `some (newStore, newStatus)` — or returns the
insufficient-stock redirect without committing anything — embedded as
`none`. -/

/-- Overwrites the `quantity` column of product `pid`, leaving every other
column and every other product unchanged (the only product mutation the POS
handlers perform). -/
def setQuantity (store : Nat → Product) (pid : Nat) (q : ℚ) : Nat → Product :=
  fun j => if j = pid then { store pid with quantity := q } else store j

/-- Embedding of the restoring loop of `update_sale_status` (pos.py lines
290-295): `item.product.quantity += item.product.calculate_inventory_deduction(...)`
for each item of the sale. -/
def restoreItems (store : Nat → Product) : List SaleItem → (Nat → Product)
  | [] => store
  | item :: rest =>
    let product := store item.product_id
    let inventory_to_restore :=
      product.calculate_inventory_deduction item.quantity item.unit_type
    restoreItems
      (setQuantity store item.product_id (product.quantity + inventory_to_restore)) rest

/-- Embedding of the deducting loop of `update_sale_status` (pos.py lines
298-311): each item is checked against the current quantity of its product
and deducted, and the first insufficiency aborts the handler (`none`). -/
def deductItems (store : Nat → Product) : List SaleItem → Option (Nat → Product)
  | [] => some store
  | item :: rest =>
    let product := store item.product_id
    let inventory_to_deduct :=
      product.calculate_inventory_deduction item.quantity item.unit_type
    if product.quantity < inventory_to_deduct then
      none
    else
      deductItems
        (setQuantity store item.product_id (product.quantity - inventory_to_deduct)) rest

/-- Embedding of `update_sale_status` (pos.py lines 275-319) for a submitted
form carrying `new_status`.  `some (store, status)` is the state committed by
`db.session.commit()`; `none` is the flash-and-redirect path that commits
nothing. -/
def update_sale_status (store : Nat → Product) (sale : Sale) (new_status : String) :
    Option ((Nat → Product) × String) :=
  let old_status := sale.status
  if old_status ≠ new_status then
    if old_status = "completed" ∧ (new_status = "pending" ∨ new_status = "cancelled") then
      some (restoreItems store sale.sale_items, new_status)
    else if (old_status = "pending" ∨ old_status = "cancelled") ∧ new_status = "completed" then
      match deductItems store sale.sale_items with
      | some store2 => some (store2, new_status)
      | none => none
    else
      some (store, new_status)
  else
    some (store, new_status)

/-- Inventory deduction of one sale item against a product store, as
`update_sale_status` computes it. -/
def itemDeduction (store : Nat → Product) (item : SaleItem) : ℚ :=
  (store item.product_id).calculate_inventory_deduction item.quantity item.unit_type

/-- Total inventory deduction that a list of sale items charges to product
`pid`. -/
def deductionSum (store : Nat → Product) (items : List SaleItem) (pid : Nat) : ℚ :=
  match items with
  | [] => 0
  | item :: rest =>
    (if item.product_id = pid then itemDeduction store item else 0) +
      deductionSum store rest pid

/-! ### Helper lemmas about the `update_sale_status` loops -/

/-- Agreement of two products on every column except `quantity`. -/
def sameButQty (p q : Product) : Prop :=
  p.purchase_price = q.purchase_price ∧ p.full_price = q.full_price ∧
    p.half_price = q.half_price ∧ p.unit_price = q.unit_price ∧
    p.units_per_pack = q.units_per_pack

/-- One entry of the checkout request's `items` list; `quantity` is the
`int(item['quantity'])` conversion at line 136. -/
structure CartItem where
  product_id : Nat
  quantity : Int
  unit_type : String
deriving DecidableEq

/-- Embedding of the checkout request body.  `amount_paid` and
`change_given` are the `Decimal(str(...))` conversions at lines 107-116
(a malformed field falls back to 0 before the handler proper runs, so the
fields are carried already converted). -/
structure CheckoutRequest where
  items : List CartItem
  status : String
  payment_method : String
  amount_paid : ℚ
  change_given : ℚ
deriving DecidableEq

/-- The `current_user` attributes the handler reads. -/
structure UserCtx where
  id : Nat
  role : String
deriving DecidableEq

/-- Database snapshot: products and sales keyed by primary key. -/
structure DB where
  products : Nat → Option Product
  sales : Nat → Option Sale
  next_sale_id : Nat

/-- Overwrites the `quantity` column of product `pid` (a no-op when the
product is absent), leaving everything else unchanged. -/
def DB.setProductQuantity (db : DB) (pid : Nat) (q : ℚ) : DB :=
  { db with
    products := fun j =>
      if j = pid then (db.products pid).map (fun p => { p with quantity := q })
      else db.products j }

/-- Inserts or overwrites the sale with id `sid`. -/
def DB.setSale (db : DB) (sid : Nat) (sale : Sale) : DB :=
  { db with sales := fun j => if j = sid then some sale else db.sales j }

/-- The SQLAlchemy session: the durable (committed) snapshot, the current
(staged) snapshot, and how many times `db.session.commit()` ran. -/
structure DbSession where
  durable : DB
  cur : DB
  commits : Nat

/-- A fresh session over a committed snapshot. -/
def DbSession.init (db : DB) : DbSession := ⟨db, db, 0⟩

/-- Stages a mutation on the current snapshot (attribute assignments,
`db.session.add`, `db.session.delete`, `db.session.flush`). -/
def DbSession.stage (s : DbSession) (f : DB → DB) : DbSession :=
  { s with cur := f s.cur }

/-- Embedding of `db.session.commit()`. -/
def DbSession.commit (s : DbSession) : DbSession :=
  { s with durable := s.cur, commits := s.commits + 1 }

/-- Embedding of `db.session.rollback()`. -/
def DbSession.rollback (s : DbSession) : DbSession :=
  { s with cur := s.durable }

/-- One entry of the `validated_items` list built in STEP 1 (lines 180-188). -/
structure ValidatedItem where
  product_id : Nat
  quantity : Int
  unit_type : String
  price : ℚ
  cost_basis : ℚ
  inventory_deduction : ℚ
deriving DecidableEq

/-- Embedding of the inline cost-basis computation of STEP 1 (lines
164-171). -/
def costBasis (product : Product) (unit_type : String) : ℚ :=
  if unit_type = "unit" then
    product.purchase_price / (product.units_per_pack : ℚ)
  else if unit_type = "half" then
    product.purchase_price / (2 : ℚ)
  else if unit_type = "quarter" then
    product.purchase_price / (4 : ℚ)
  else
    product.purchase_price

/-- Embedding of the STEP 1 loop (lines 134-188): look each cart item's
product up, check stock against its inventory deduction, accumulate the
running total and profit, and record the validated item.  A missing product
or insufficient stock raises `ValueError` (`Except.error`); the
interpolated details of the Python messages are abstracted away. -/
def validateItems (db : DB) : List CartItem → Except String (ℚ × ℚ × List ValidatedItem)
  | [] => .ok (0, 0, [])
  | item :: rest =>
    match db.products item.product_id with
    | none => .error "Product not found"
    | some product =>
      let inventory_deduction :=
        product.calculate_inventory_deduction (item.quantity : ℚ) item.unit_type
      if product.quantity < inventory_deduction then
        .error "Insufficient stock"
      else
        let price := product.get_price_for_unit item.unit_type
        let cost_basis := costBasis product item.unit_type
        let line_total := price * (item.quantity : ℚ)
        let line_profit := (price - cost_basis) * (item.quantity : ℚ)
        match validateItems db rest with
        | .error e => .error e
        | .ok (total, total_profit, validated) =>
          .ok (line_total + total, line_profit + total_profit,
            ⟨item.product_id, item.quantity, item.unit_type, price, cost_basis,
              inventory_deduction⟩ :: validated)

/-- Embedding of the restore loop of the continuing-sale branch (lines
205-211): each previous item's deduction is added back to its product
(the sale items themselves are deleted by the caller).  The foreign key
guarantees the product exists; a missing product is a no-op here where
Python would fail the request. -/
def restoreSaleItems (db : DB) : List SaleItem → DB
  | [] => db
  | item :: rest =>
    let db1 :=
      match db.products item.product_id with
      | some product =>
        db.setProductQuantity item.product_id
          (product.quantity +
            product.calculate_inventory_deduction item.quantity item.unit_type)
      | none => db
    restoreSaleItems db1 rest

/-- Converts a validated item into the `SaleItem` row created at lines
242-250. -/
def ValidatedItem.toSaleItem (v : ValidatedItem) : SaleItem :=
  ⟨v.product_id, (v.quantity : ℚ), v.unit_type, v.price, v.cost_basis⟩

/-- Embedding of the STEP 4 loop (lines 234-250): when the sale is
completed, deduct each validated item's stored deduction from its product;
in every case append the new sale-item row to the sale `sid`. -/
def applyItems (sale_status : String) (sid : Nat) (db : DB) :
    List ValidatedItem → DB
  | [] => db
  | v :: rest =>
    let db1 :=
      if sale_status = "completed" then
        match db.products v.product_id with
        | some product =>
          db.setProductQuantity v.product_id (product.quantity - v.inventory_deduction)
        | none => db
      else db
    let db2 :=
      match db1.sales sid with
      | some sale =>
        db1.setSale sid { sale with sale_items := sale.sale_items ++ [v.toSaleItem] }
      | none => db1
    applyItems sale_status sid db2 rest

/-- Embedding of the status sanitisation at lines 121-122. -/
def saleStatusOf (req : CheckoutRequest) : String :=
  if req.status = "completed" ∨ req.status = "pending" then req.status else "completed"

/-- Embedding of the payment-method sanitisation at lines 124-125. -/
def paymentMethodOf (req : CheckoutRequest) : String :=
  if req.payment_method ∈ ["cash", "card", "mobile_money", "bank_transfer"] then
    req.payment_method else "cash"

/-- Embedding of the new-sale insertion at lines 220-229 (the flush at line
231 makes the row and its primary key visible). -/
def insertNewSale (user : UserCtx) (req : CheckoutRequest)
    (sale_status payment_method : String) (db : DB) : DB :=
  { db.setSale db.next_sale_id
      { clerk_id := user.id,
        total_amount := 0,
        total_profit := 0,
        payment_method := payment_method,
        amount_paid := req.amount_paid,
        change_given := req.change_given,
        status := sale_status,
        sale_items := [] } with
    next_sale_id := db.next_sale_id + 1 }

/-- Embedding of lines 211-218 of the continuing-sale branch: the previous
sale-item rows are deleted and the sale's payment fields and status are
overwritten. -/
def resetContinuingSale (sale : Sale) (sale_id : Nat) (req : CheckoutRequest)
    (sale_status payment_method : String) (db : DB) : DB :=
  db.setSale sale_id
    { sale with
      payment_method := payment_method,
      amount_paid := req.amount_paid,
      change_given := req.change_given,
      status := sale_status,
      sale_items := [] }

/-- Embedding of the totals update at lines 252-254. -/
def setSaleTotals (sid : Nat) (total total_profit : ℚ) (db : DB) : DB :=
  match db.sales sid with
  | some sale =>
    db.setSale sid { sale with total_amount := total, total_profit := total_profit }
  | none => db

/-- Result of the body of the `try` block: `committed` reached
`db.session.commit()` at line 256, `earlyReturn` is a plain
`return jsonify(...), code` before any commit, `raised` is an exception
propagating into the `except` handler at line 271. -/
inductive CheckoutOutcome where
  | committed (s : DbSession) (sale_id : Nat) (total total_profit : ℚ) (status : String)
  | earlyReturn (s : DbSession) (code : Nat) (msg : String)
  | raised (s : DbSession) (msg : String)

/-- Embedding of STEP 3's tail and STEP 4 through the commit (lines
231-269): stage the item rows and inventory deductions, stage the sale
totals, and commit. -/
def finishCheckout (sale_status : String) (sid : Nat) (total total_profit : ℚ)
    (validated : List ValidatedItem) (s : DbSession) : CheckoutOutcome :=
  let s1 := s.stage (fun db => applyItems sale_status sid db validated)
  let s2 := s1.stage (setSaleTotals sid total total_profit)
  .committed s2.commit sid total total_profit sale_status

/-- Embedding of the body of the `try` block of `checkout` (lines
102-269). -/
def checkout_body (req : CheckoutRequest) (user : UserCtx)
    (continue_sale_id : Option Nat) (s : DbSession) : CheckoutOutcome :=
  let sale_status := saleStatusOf req
  let payment_method := paymentMethodOf req
  if req.items = [] then
    .earlyReturn s 400 "No items in cart"
  else
    match validateItems s.cur req.items with
    | .error e => .raised s e
    | .ok (total, total_profit, validated) =>
      if sale_status = "completed" ∧ req.amount_paid < total then
        .earlyReturn s 400 "Payment amount is less than total amount"
      else
        match continue_sale_id with
        | some sale_id =>
          match s.cur.sales sale_id with
          | none => .earlyReturn s 400 "Invalid pending sale"
          | some sale =>
            if sale.status ≠ "pending" then
              .earlyReturn s 400 "Invalid pending sale"
            else if user.role = "cashier" ∧ sale.clerk_id ≠ user.id then
              .earlyReturn s 403 "Access denied"
            else
              let s1 := s.stage (fun db => restoreSaleItems db sale.sale_items)
              let s2 := s1.stage (resetContinuingSale sale sale_id req sale_status payment_method)
              finishCheckout sale_status sale_id total total_profit validated s2
        | none =>
          let sid := s.cur.next_sale_id
          let s1 := s.stage (insertNewSale user req sale_status payment_method)
          finishCheckout sale_status sid total total_profit validated s1

/-- Embedding of the `checkout` endpoint (lines 97-273): the `try` body
followed by the `except` handler.  The returned `DB` is the durable state
after the request: an early return or an exception (which rolls the session
back) leaves the committed snapshot; success publishes the staged one. -/
def checkout (req : CheckoutRequest) (user : UserCtx) (continue_sale_id : Option Nat)
    (db : DB) : DB × Nat × String :=
  match checkout_body req user continue_sale_id (DbSession.init db) with
  | .committed s _ _ _ _ => (s.durable, 200, "success")
  | .earlyReturn s code msg => (s.durable, code, msg)
  | .raised s msg => (s.rollback.durable, 400, msg)

/-! ### Session plumbing lemmas -/

/-- Specification-side sum: the exact decimal total of a cart, item price
(per `get_price_for_unit`) times integer quantity (claim C5's first sum). -/
def saleTotalSpec (db : DB) : List CartItem → ℚ
  | [] => 0
  | item :: rest =>
    (match db.products item.product_id with
     | some p => p.get_price_for_unit item.unit_type * (item.quantity : ℚ)
     | none => 0) + saleTotalSpec db rest

/-- Specification-side sum: the exact decimal profit of a cart, (item price
minus cost basis) times integer quantity (claim C5's second sum). -/
def saleProfitSpec (db : DB) : List CartItem → ℚ
  | [] => 0
  | item :: rest =>
    (match db.products item.product_id with
     | some p =>
       (p.get_price_for_unit item.unit_type - costBasis p item.unit_type) *
         (item.quantity : ℚ)
     | none => 0) + saleProfitSpec db rest

/-- Inventory deduction of a stored sale item against a `DB` product store
(0 when the product row is absent). -/
def optDeduction (db : DB) (item : SaleItem) : ℚ :=
  match db.products item.product_id with
  | some p => p.calculate_inventory_deduction item.quantity item.unit_type
  | none => 0

/-- Pointwise relation between product rows: still absent, or present with
the same columns except a quantity that did not shrink. -/
def qtyGrew : Option Product → Option Product → Prop
  | none, none => True
  | some p1, some p2 => sameButQty p1 p2 ∧ p1.quantity ≤ p2.quantity
  | _, _ => False

/-- What STEP 1 records about one cart item when it passes validation: the
cart fields are copied, the product exists, price and cost basis are the
model functions of that product, and the deduction passed the stock
check. -/
def ValidatedOk (db : DB) (vi : ValidatedItem) (ci : CartItem) : Prop :=
  vi.product_id = ci.product_id ∧ vi.quantity = ci.quantity ∧
  vi.unit_type = ci.unit_type ∧
  ∃ p, db.products ci.product_id = some p ∧
    vi.price = p.get_price_for_unit ci.unit_type ∧
    vi.cost_basis = costBasis p ci.unit_type ∧
    vi.inventory_deduction =
      p.calculate_inventory_deduction (ci.quantity : ℚ) ci.unit_type ∧
    vi.inventory_deduction ≤ p.quantity

/-! ### Concrete sample data (used to evaluate the model on closed inputs) -/

/-- Sample product: bought at 4, sold at 10, 2 retail units per pack, 5
packs in stock. -/
def prodW : Product := ⟨4, 10, none, none, 2, 5⟩

/-- Sample product whose stored retail unit price is the decimal 0. -/
def prodZeroUnit : Product := ⟨4, 10, none, some 0, 2, 5⟩

/-- Sample product with a single pack in stock and one unit per pack. -/
def prodOne : Product := ⟨5, 10, none, none, 1, 1⟩

/-- Product store holding `prodOne` under every id. -/
def pstoreW : Nat → Product := fun _ => prodOne

/-- Sale item: two full packs of product 0. -/
def saleItemW : SaleItem := ⟨0, 2, "full", 10, 5⟩

/-- Completed sample sale holding `saleItemW`. -/
def saleW : Sale := ⟨1, 20, 10, "cash", 20, 0, "completed", [saleItemW]⟩

/-- Sale item: one full pack of product 0. -/
def saleItemOne : SaleItem := ⟨0, 1, "full", 10, 5⟩

/-- Pending sale that lists product 0 twice, one pack each time. -/
def saleDup : Sale := ⟨1, 20, 10, "cash", 20, 0, "pending", [saleItemOne, saleItemOne]⟩

/-- Pending sale with a single one-pack item of product 0. -/
def saleOne : Sale := ⟨1, 10, 5, "cash", 10, 0, "pending", [saleItemOne]⟩

/-- Sale item: three retail units of product 0. -/
def itemUnits : SaleItem := ⟨0, 3, "unit", 5, 2⟩

/-- Sample logged-in user. -/
def userW : UserCtx := ⟨1, "admin"⟩

/-- Database with no products and no sales. -/
def dbEmpty : DB := ⟨fun _ => none, fun _ => none, 1⟩

/-- Database holding `prodW` as product 0. -/
def dbW : DB := ⟨fun pid => if pid = 0 then some prodW else none, fun _ => none, 1⟩

/-- Database holding `prodOne` as product 0. -/
def dbOne : DB := ⟨fun pid => if pid = 0 then some prodOne else none, fun _ => none, 1⟩

/-- Checkout request for a product id that does not exist. -/
def reqMissing : CheckoutRequest := ⟨[⟨5, 1, "full"⟩], "completed", "cash", 0, 0⟩

/-- Completed-checkout request for two full packs of product 0, paid in
full. -/
def reqTwoPacks : CheckoutRequest := ⟨[⟨0, 2, "full"⟩], "completed", "cash", 20, 0⟩

/-- Completed-checkout request listing product 0 twice, one pack each
time. -/
def reqDup : CheckoutRequest := ⟨[⟨0, 1, "full"⟩, ⟨0, 1, "full"⟩], "completed", "cash", 20, 0⟩

/-- Pending-checkout request for two full packs of product 0. -/
def reqPending : CheckoutRequest := ⟨[⟨0, 2, "full"⟩], "pending", "cash", 0, 0⟩

/-! ### Lemmas -/

theorem calculate_inventory_deduction_congr (p q : Product)
    (h : p.units_per_pack = q.units_per_pack) (a : ℚ) (ut : String) :
    p.calculate_inventory_deduction a ut = q.calculate_inventory_deduction a ut := by
  unfold Product.calculate_inventory_deduction
  rw [h]

theorem setQuantity_quantity (store : Nat → Product) (pid : Nat) (q : ℚ) (j : Nat) :
    (setQuantity store pid q j).quantity = if j = pid then q else (store j).quantity := by
  unfold setQuantity
  split <;> rfl

theorem setQuantity_units (store : Nat → Product) (pid : Nat) (q : ℚ) (j : Nat) :
    (setQuantity store pid q j).units_per_pack = (store j).units_per_pack := by
  unfold setQuantity
  split
  · rename_i hj
    subst hj
    rfl
  · rfl

theorem sameButQty_refl (p : Product) : sameButQty p p :=
  ⟨rfl, rfl, rfl, rfl, rfl⟩

theorem sameButQty_trans {p q r : Product} (h1 : sameButQty p q) (h2 : sameButQty q r) :
    sameButQty p r :=
  ⟨h1.1.trans h2.1, h1.2.1.trans h2.2.1, h1.2.2.1.trans h2.2.2.1,
    h1.2.2.2.1.trans h2.2.2.2.1, h1.2.2.2.2.trans h2.2.2.2.2⟩

theorem sameButQty_eq_update {p q : Product} (h : sameButQty p q) :
    q = { p with quantity := q.quantity } := by
  cases p
  cases q
  obtain ⟨h1, h2, h3, h4, h5⟩ := h
  simp only [] at h1 h2 h3 h4 h5
  subst h1 h2 h3 h4 h5
  rfl

theorem setQuantity_sameButQty (store : Nat → Product) (pid : Nat) (q : ℚ) (j : Nat) :
    sameButQty (store j) (setQuantity store pid q j) := by
  unfold setQuantity
  split
  · rename_i hj
    subst hj
    exact ⟨rfl, rfl, rfl, rfl, rfl⟩
  · exact sameButQty_refl _

theorem itemDeduction_setQuantity (store : Nat → Product) (pid : Nat) (q : ℚ)
    (item : SaleItem) :
    itemDeduction (setQuantity store pid q) item = itemDeduction store item := by
  unfold itemDeduction
  exact calculate_inventory_deduction_congr _ _ (setQuantity_units store pid q _) _ _

theorem deductionSum_nil (store : Nat → Product) (pid : Nat) :
    deductionSum store [] pid = 0 := rfl

theorem deductionSum_cons (store : Nat → Product) (item : SaleItem)
    (rest : List SaleItem) (pid : Nat) :
    deductionSum store (item :: rest) pid =
      (if item.product_id = pid then itemDeduction store item else 0) +
        deductionSum store rest pid := rfl

theorem deductionSum_setQuantity (store : Nat → Product) (pid : Nat) (q : ℚ)
    (items : List SaleItem) (j : Nat) :
    deductionSum (setQuantity store pid q) items j = deductionSum store items j := by
  induction items with
  | nil => rfl
  | cons item rest ih =>
    rw [deductionSum_cons, deductionSum_cons, ih, itemDeduction_setQuantity]

theorem deductionSum_nonneg (store : Nat → Product) (items : List SaleItem) (pid : Nat)
    (h : ∀ item ∈ items, 0 ≤ itemDeduction store item) :
    0 ≤ deductionSum store items pid := by
  induction items with
  | nil => exact le_refl 0
  | cons item rest ih =>
    rw [deductionSum_cons]
    have h1 : 0 ≤ (if item.product_id = pid then itemDeduction store item else 0) := by
      split
      · exact h item (List.mem_cons_self _ _)
      · exact le_refl 0
    have h2 : 0 ≤ deductionSum store rest pid :=
      ih (fun x hx => h x (List.mem_cons_of_mem _ hx))
    linarith

theorem deductionSum_eq_zero (store : Nat → Product) (items : List SaleItem) (pid : Nat)
    (h : ∀ item ∈ items, item.product_id ≠ pid) :
    deductionSum store items pid = 0 := by
  induction items with
  | nil => rfl
  | cons item rest ih =>
    rw [deductionSum_cons, if_neg (h item (List.mem_cons_self _ _)),
      ih (fun x hx => h x (List.mem_cons_of_mem _ hx)), add_zero]

theorem restoreItems_nil (store : Nat → Product) : restoreItems store [] = store := rfl

theorem restoreItems_cons (store : Nat → Product) (item : SaleItem) (rest : List SaleItem) :
    restoreItems store (item :: rest) =
      restoreItems
        (setQuantity store item.product_id
          ((store item.product_id).quantity + itemDeduction store item)) rest := rfl

theorem deductItems_nil (store : Nat → Product) : deductItems store [] = some store := rfl

theorem deductItems_cons (store : Nat → Product) (item : SaleItem) (rest : List SaleItem) :
    deductItems store (item :: rest) =
      if (store item.product_id).quantity < itemDeduction store item then
        none
      else
        deductItems
          (setQuantity store item.product_id
            ((store item.product_id).quantity - itemDeduction store item)) rest := rfl

/-- Quantity after the restoring loop: each product's quantity grows by the
total deduction its items charge to it. -/
theorem restoreItems_quantity (items : List SaleItem) (store : Nat → Product) (pid : Nat) :
    (restoreItems store items pid).quantity =
      (store pid).quantity + deductionSum store items pid := by
  induction items generalizing store with
  | nil => rw [restoreItems_nil, deductionSum_nil, add_zero]
  | cons item rest ih =>
    rw [restoreItems_cons, ih, deductionSum_setQuantity, setQuantity_quantity,
      deductionSum_cons]
    by_cases hj : pid = item.product_id
    · rw [if_pos hj, if_pos hj.symm]
      rw [hj]
      ring
    · rw [if_neg hj, if_neg (fun h => hj h.symm), zero_add]

/-- The restoring loop changes no column other than `quantity`. -/
theorem restoreItems_sameButQty (items : List SaleItem) (store : Nat → Product) (pid : Nat) :
    sameButQty (store pid) (restoreItems store items pid) := by
  induction items generalizing store with
  | nil => exact sameButQty_refl _
  | cons item rest ih =>
    rw [restoreItems_cons]
    exact sameButQty_trans (setQuantity_sameButQty store _ _ pid) (ih _)

/-- Quantity after a committed deducting loop: each product's quantity
shrinks by the total deduction its items charge to it. -/
theorem deductItems_quantity (items : List SaleItem) (store store2 : Nat → Product)
    (h : deductItems store items = some store2) (pid : Nat) :
    (store2 pid).quantity = (store pid).quantity - deductionSum store items pid := by
  induction items generalizing store with
  | nil =>
    rw [deductItems_nil] at h
    cases h
    rw [deductionSum_nil, sub_zero]
  | cons item rest ih =>
    rw [deductItems_cons] at h
    by_cases hc : (store item.product_id).quantity < itemDeduction store item
    · rw [if_pos hc] at h
      cases h
    · rw [if_neg hc] at h
      rw [ih _ h, deductionSum_setQuantity, setQuantity_quantity, deductionSum_cons]
      by_cases hj : pid = item.product_id
      · rw [if_pos hj, if_pos hj.symm, hj]
        ring
      · rw [if_neg hj, if_neg (fun h => hj h.symm), zero_add]

/-- A committed deducting loop changes no column other than `quantity`. -/
theorem deductItems_sameButQty (items : List SaleItem) (store store2 : Nat → Product)
    (h : deductItems store items = some store2) (pid : Nat) :
    sameButQty (store pid) (store2 pid) := by
  induction items generalizing store with
  | nil =>
    rw [deductItems_nil] at h
    cases h
    exact sameButQty_refl _
  | cons item rest ih =>
    rw [deductItems_cons] at h
    by_cases hc : (store item.product_id).quantity < itemDeduction store item
    · rw [if_pos hc] at h
      cases h
    · rw [if_neg hc] at h
      exact sameButQty_trans (setQuantity_sameButQty store _ _ pid) (ih _ h)

/-- When every item's total charge fits inside the current quantity of its
product (and the individual deductions are non-negative), the deducting loop
commits. -/
theorem deductItems_isSome (items : List SaleItem) (store : Nat → Product)
    (hd : ∀ item ∈ items, 0 ≤ itemDeduction store item)
    (hs : ∀ item ∈ items,
      deductionSum store items item.product_id ≤ (store item.product_id).quantity) :
    ∃ store2, deductItems store items = some store2 := by
  induction items generalizing store with
  | nil => exact ⟨store, rfl⟩
  | cons item rest ih =>
    have hrest_nonneg : 0 ≤ deductionSum store rest item.product_id :=
      deductionSum_nonneg store rest item.product_id
        (fun x hx => hd x (List.mem_cons_of_mem _ hx))
    have hsum := hs item (List.mem_cons_self _ _)
    rw [deductionSum_cons, if_pos rfl] at hsum
    have hok : ¬ (store item.product_id).quantity < itemDeduction store item := by
      linarith
    rw [deductItems_cons, if_neg hok]
    apply ih
    · intro x hx
      rw [itemDeduction_setQuantity]
      exact hd x (List.mem_cons_of_mem _ hx)
    · intro x hx
      rw [deductionSum_setQuantity, setQuantity_quantity]
      have hsx := hs x (List.mem_cons_of_mem _ hx)
      rw [deductionSum_cons] at hsx
      by_cases hj : x.product_id = item.product_id
      · rw [if_pos hj]
        rw [hj, if_pos rfl] at hsx
        rw [hj]
        linarith
      · rw [if_neg hj]
        rw [if_neg (fun h => hj h.symm), zero_add] at hsx
        exact hsx

/-- Every product of an item of a committed deducting loop ends with a
non-negative quantity: its last write passed the sufficiency check. -/
theorem deductItems_nonneg (items : List SaleItem) (store store2 : Nat → Product)
    (h : deductItems store items = some store2) :
    ∀ item ∈ items, 0 ≤ (store2 item.product_id).quantity := by
  induction items generalizing store with
  | nil => intro item hitem; cases hitem
  | cons item rest ih =>
    rw [deductItems_cons] at h
    by_cases hc : (store item.product_id).quantity < itemDeduction store item
    · rw [if_pos hc] at h
      cases h
    · rw [if_neg hc] at h
      intro x hx
      rcases List.mem_cons.mp hx with hx1 | hx2
      · subst hx1
        by_cases hrest : ∀ y ∈ rest, y.product_id ≠ x.product_id
        · have h2 := deductItems_quantity rest _ _ h x.product_id
          rw [deductionSum_setQuantity, deductionSum_eq_zero _ _ _ hrest, sub_zero,
            setQuantity_quantity, if_pos rfl] at h2
          rw [h2]
          linarith
        · push_neg at hrest
          obtain ⟨y, hy, hpy⟩ := hrest
          have := ih _ h y hy
          rw [hpy] at this
          exact this
      · exact ih _ h x hx2

/-! ### The `checkout` handler (pos.py lines 97-273)

The request payload carries a list of cart items (`product_id`, an integer
`quantity`, a `unit_type` string), a requested sale status, a payment
method and the amounts paid/returned; `continue_sale_id` is the session
cookie slot read at line 127.  The database holds products keyed by id
(`Product.query.get` may miss) and sales keyed by id; `next_sale_id` is
the primary key the next inserted sale receives. -/

theorem stage_durable (s : DbSession) (f : DB → DB) : (s.stage f).durable = s.durable := rfl

theorem stage_commits (s : DbSession) (f : DB → DB) : (s.stage f).commits = s.commits := rfl

theorem stage_cur (s : DbSession) (f : DB → DB) : (s.stage f).cur = f s.cur := rfl

theorem commit_durable (s : DbSession) : s.commit.durable = s.cur := rfl

theorem commit_commits (s : DbSession) : s.commit.commits = s.commits + 1 := rfl

theorem rollback_durable (s : DbSession) : s.rollback.durable = s.durable := rfl

theorem finishCheckout_eq (sale_status : String) (sid : Nat) (total total_profit : ℚ)
    (validated : List ValidatedItem) (s : DbSession) :
    finishCheckout sale_status sid total total_profit validated s =
      .committed
        ⟨setSaleTotals sid total total_profit (applyItems sale_status sid s.cur validated),
         setSaleTotals sid total total_profit (applyItems sale_status sid s.cur validated),
         s.commits + 1⟩
        sid total total_profit sale_status := rfl

/-- Complete case analysis of the `try` body of `checkout`: it either
returns early (HTTP 400 or 403) without touching the session, raises the
`ValueError` of STEP 1 without touching the session, or validates the
items, stages the sale (fresh or continuing) and the inventory updates, and
commits exactly once. -/
theorem checkout_body_cases (req : CheckoutRequest) (user : UserCtx)
    (csid : Option Nat) (s0 : DbSession) :
    (∃ code msg, checkout_body req user csid s0 = .earlyReturn s0 code msg ∧
      (code = 400 ∨ code = 403)) ∨
    (∃ msg, checkout_body req user csid s0 = .raised s0 msg ∧
      validateItems s0.cur req.items = .error msg) ∨
    (∃ total total_profit validated dbPre sid,
      validateItems s0.cur req.items = .ok (total, total_profit, validated) ∧
      checkout_body req user csid s0 =
        .committed
          ⟨setSaleTotals sid total total_profit
             (applyItems (saleStatusOf req) sid dbPre validated),
           setSaleTotals sid total total_profit
             (applyItems (saleStatusOf req) sid dbPre validated),
           s0.commits + 1⟩
          sid total total_profit (saleStatusOf req) ∧
      ((csid = none ∧ sid = s0.cur.next_sale_id ∧
          dbPre = insertNewSale user req (saleStatusOf req) (paymentMethodOf req) s0.cur) ∨
       (∃ sale, csid = some sid ∧ s0.cur.sales sid = some sale ∧ sale.status = "pending" ∧
          dbPre = resetContinuingSale sale sid req (saleStatusOf req) (paymentMethodOf req)
            (restoreSaleItems s0.cur sale.sale_items)))) := by
  by_cases h1 : req.items = []
  · refine Or.inl ⟨400, "No items in cart", ?_, Or.inl rfl⟩
    unfold checkout_body
    rw [if_pos h1]
  · cases hval : validateItems s0.cur req.items with
    | error e =>
      refine Or.inr (Or.inl ⟨e, ?_, rfl⟩)
      unfold checkout_body
      rw [if_neg h1, hval]
    | ok trip =>
      obtain ⟨total, total_profit, validated⟩ := trip
      by_cases h2 : saleStatusOf req = "completed" ∧ req.amount_paid < total
      · refine Or.inl ⟨400, "Payment amount is less than total amount", ?_, Or.inl rfl⟩
        unfold checkout_body
        rw [if_neg h1, hval]
        dsimp only []
        rw [if_pos h2]
      · cases csid with
        | none =>
          refine Or.inr (Or.inr ⟨total, total_profit, validated,
            insertNewSale user req (saleStatusOf req) (paymentMethodOf req) s0.cur,
            s0.cur.next_sale_id, rfl, ?_, Or.inl ⟨rfl, rfl, rfl⟩⟩)
          unfold checkout_body
          rw [if_neg h1, hval]
          dsimp only []
          rw [if_neg h2]
          exact finishCheckout_eq _ _ _ _ _ _
        | some sale_id =>
          cases hsale : s0.cur.sales sale_id with
          | none =>
            refine Or.inl ⟨400, "Invalid pending sale", ?_, Or.inl rfl⟩
            unfold checkout_body
            rw [if_neg h1, hval]
            dsimp only []
            rw [if_neg h2, hsale]
          | some sale =>
            by_cases h3 : sale.status ≠ "pending"
            · refine Or.inl ⟨400, "Invalid pending sale", ?_, Or.inl rfl⟩
              unfold checkout_body
              rw [if_neg h1, hval]
              dsimp only []
              rw [if_neg h2, hsale]
              dsimp only []
              rw [if_pos h3]
            · by_cases h4 : user.role = "cashier" ∧ sale.clerk_id ≠ user.id
              · refine Or.inl ⟨403, "Access denied", ?_, Or.inr rfl⟩
                unfold checkout_body
                rw [if_neg h1, hval]
                dsimp only []
                rw [if_neg h2, hsale]
                dsimp only []
                rw [if_neg h3, if_pos h4]
              · push_neg at h3
                refine Or.inr (Or.inr ⟨total, total_profit, validated,
                  resetContinuingSale sale sale_id req (saleStatusOf req) (paymentMethodOf req)
                    (restoreSaleItems s0.cur sale.sale_items),
                  sale_id, rfl, ?_, Or.inr ⟨sale, rfl, hsale, h3, rfl⟩⟩)
                unfold checkout_body
                rw [if_neg h1, hval]
                dsimp only []
                rw [if_neg h2, hsale]
                dsimp only []
                rw [if_neg (by intro hc; exact hc h3), if_neg h4]
                exact finishCheckout_eq _ _ _ _ _ _

theorem setProductQuantity_products (db : DB) (pid : Nat) (q : ℚ) (j : Nat) :
    (db.setProductQuantity pid q).products j =
      if j = pid then (db.products pid).map (fun p => { p with quantity := q })
      else db.products j := rfl

theorem setProductQuantity_sales (db : DB) (pid : Nat) (q : ℚ) :
    (db.setProductQuantity pid q).sales = db.sales := rfl

theorem setSale_products (db : DB) (sid : Nat) (sale : Sale) :
    (db.setSale sid sale).products = db.products := rfl

theorem setSale_sales (db : DB) (sid : Nat) (sale : Sale) (j : Nat) :
    (db.setSale sid sale).sales j = if j = sid then some sale else db.sales j := rfl

theorem setSaleTotals_products (sid : Nat) (total total_profit : ℚ) (db : DB) :
    (setSaleTotals sid total total_profit db).products = db.products := by
  unfold setSaleTotals
  split <;> rfl

theorem setSaleTotals_sales_at (sid : Nat) (total total_profit : ℚ) (db : DB) :
    (setSaleTotals sid total total_profit db).sales sid =
      (db.sales sid).map
        (fun sale => { sale with total_amount := total, total_profit := total_profit }) := by
  unfold setSaleTotals
  cases h : db.sales sid with
  | none => rw [h]; rfl
  | some sale =>
    rw [setSale_sales, if_pos rfl]
    rfl

theorem insertNewSale_products (user : UserCtx) (req : CheckoutRequest)
    (sale_status payment_method : String) (db : DB) :
    (insertNewSale user req sale_status payment_method db).products = db.products := rfl

theorem insertNewSale_sales_at (user : UserCtx) (req : CheckoutRequest)
    (sale_status payment_method : String) (db : DB) :
    (insertNewSale user req sale_status payment_method db).sales db.next_sale_id =
      some ⟨user.id, 0, 0, payment_method, req.amount_paid, req.change_given,
        sale_status, []⟩ := by
  unfold insertNewSale
  rw [setSale_sales, if_pos rfl]

theorem resetContinuingSale_products (sale : Sale) (sale_id : Nat) (req : CheckoutRequest)
    (sale_status payment_method : String) (db : DB) :
    (resetContinuingSale sale sale_id req sale_status payment_method db).products =
      db.products := rfl

theorem resetContinuingSale_sales_at (sale : Sale) (sale_id : Nat) (req : CheckoutRequest)
    (sale_status payment_method : String) (db : DB) :
    (resetContinuingSale sale sale_id req sale_status payment_method db).sales sale_id =
      some { sale with
        payment_method := payment_method,
        amount_paid := req.amount_paid,
        change_given := req.change_given,
        status := sale_status,
        sale_items := [] } := by
  unfold resetContinuingSale
  rw [setSale_sales, if_pos rfl]

theorem restoreSaleItems_nil (db : DB) : restoreSaleItems db [] = db := rfl

theorem restoreSaleItems_cons (db : DB) (item : SaleItem) (rest : List SaleItem) :
    restoreSaleItems db (item :: rest) =
      restoreSaleItems
        (match db.products item.product_id with
         | some product =>
           db.setProductQuantity item.product_id
             (product.quantity +
               product.calculate_inventory_deduction item.quantity item.unit_type)
         | none => db) rest := rfl

theorem restoreSaleItems_sales (items : List SaleItem) (db : DB) :
    (restoreSaleItems db items).sales = db.sales := by
  induction items generalizing db with
  | nil => rfl
  | cons item rest ih =>
    rw [restoreSaleItems_cons]
    cases h : db.products item.product_id with
    | none => rw [ih]
    | some product => rw [ih, setProductQuantity_sales]

theorem optDeduction_setProductQuantity (db : DB) (pid : Nat) (q : ℚ) (item : SaleItem) :
    optDeduction (db.setProductQuantity pid q) item = optDeduction db item := by
  unfold optDeduction
  rw [setProductQuantity_products]
  by_cases hj : item.product_id = pid
  · rw [if_pos hj, hj]
    cases h : db.products pid with
    | none => rfl
    | some p =>
      dsimp only [Option.map]
      exact calculate_inventory_deduction_congr _ _ rfl _ _
  · rw [if_neg hj]

theorem qtyGrew_refl (o : Option Product) : qtyGrew o o := by
  cases o with
  | none => trivial
  | some p => exact ⟨sameButQty_refl p, le_refl _⟩

theorem qtyGrew_trans {o1 o2 o3 : Option Product}
    (h1 : qtyGrew o1 o2) (h2 : qtyGrew o2 o3) : qtyGrew o1 o3 := by
  cases o1 <;> cases o2 <;> cases o3 <;>
    first
      | trivial
      | exact h1.elim
      | exact h2.elim
      | exact ⟨sameButQty_trans h1.1 h2.1, le_trans h1.2 h2.2⟩

/-- The continuing-sale restore loop only grows product quantities (when
the stored items' deductions are non-negative) and keeps every other
column. -/
theorem restoreSaleItems_qtyGrew (items : List SaleItem) (db : DB)
    (h : ∀ item ∈ items, 0 ≤ optDeduction db item) (pid : Nat) :
    qtyGrew (db.products pid) ((restoreSaleItems db items).products pid) := by
  induction items generalizing db with
  | nil => exact qtyGrew_refl _
  | cons item rest ih =>
    rw [restoreSaleItems_cons]
    cases hp : db.products item.product_id with
    | none => exact ih db (fun x hx => h x (List.mem_cons_of_mem _ hx))
    | some product =>
      have hstep : qtyGrew (db.products pid)
          ((db.setProductQuantity item.product_id
            (product.quantity +
              product.calculate_inventory_deduction item.quantity item.unit_type)).products
            pid) := by
        rw [setProductQuantity_products]
        by_cases hj : pid = item.product_id
        · rw [if_pos hj, hj, hp]
          dsimp only [Option.map]
          refine ⟨⟨rfl, rfl, rfl, rfl, rfl⟩, ?_⟩
          show product.quantity ≤ product.quantity +
            product.calculate_inventory_deduction item.quantity item.unit_type
          have hd := h item (List.mem_cons_self _ _)
          unfold optDeduction at hd
          rw [hp] at hd
          linarith
        · rw [if_neg hj]
          exact qtyGrew_refl _
      refine qtyGrew_trans hstep (ih _ ?_)
      intro x hx
      rw [optDeduction_setProductQuantity]
      exact h x (List.mem_cons_of_mem _ hx)

theorem validateItems_nil (db : DB) : validateItems db [] = .ok (0, 0, []) := rfl

theorem validateItems_cons (db : DB) (item : CartItem) (rest : List CartItem) :
    validateItems db (item :: rest) =
      match db.products item.product_id with
      | none => .error "Product not found"
      | some product =>
        if product.quantity <
            product.calculate_inventory_deduction (item.quantity : ℚ) item.unit_type then
          .error "Insufficient stock"
        else
          match validateItems db rest with
          | .error e => .error e
          | .ok (total, total_profit, validated) =>
            .ok (product.get_price_for_unit item.unit_type * (item.quantity : ℚ) + total,
              (product.get_price_for_unit item.unit_type - costBasis product item.unit_type) *
                (item.quantity : ℚ) + total_profit,
              ⟨item.product_id, item.quantity, item.unit_type,
                product.get_price_for_unit item.unit_type, costBasis product item.unit_type,
                product.calculate_inventory_deduction (item.quantity : ℚ) item.unit_type⟩ ::
                validated) := rfl

/-- What STEP 1 guarantees when it succeeds: the accumulated total and
profit are the specification sums, and each validated item records its cart
item's fields together with the looked-up product, the price, the cost
basis, and a deduction that passed the stock check. -/
theorem validateItems_ok (items : List CartItem) (db : DB) (total total_profit : ℚ)
    (validated : List ValidatedItem)
    (h : validateItems db items = .ok (total, total_profit, validated)) :
    total = saleTotalSpec db items ∧ total_profit = saleProfitSpec db items ∧
    List.Forall₂ (ValidatedOk db) validated items := by
  induction items generalizing total total_profit validated with
  | nil =>
    rw [validateItems_nil] at h
    simp only [Except.ok.injEq, Prod.mk.injEq] at h
    obtain ⟨h1, h2, h3⟩ := h
    subst h1
    subst h2
    subst h3
    exact ⟨rfl, rfl, List.Forall₂.nil⟩
  | cons item rest ih =>
    rw [validateItems_cons] at h
    cases hp : db.products item.product_id with
    | none =>
      rw [hp] at h
      cases h
    | some product =>
      rw [hp] at h
      dsimp only [] at h
      by_cases hstock : product.quantity <
          product.calculate_inventory_deduction (item.quantity : ℚ) item.unit_type
      · rw [if_pos hstock] at h
        cases h
      · rw [if_neg hstock] at h
        cases hr : validateItems db rest with
        | error e =>
          rw [hr] at h
          cases h
        | ok trip =>
          obtain ⟨total0, total_profit0, validated0⟩ := trip
          rw [hr] at h
          simp only [Except.ok.injEq, Prod.mk.injEq] at h
          obtain ⟨h1, h2, h3⟩ := h
          obtain ⟨ht, htp, hv⟩ := ih total0 total_profit0 validated0 hr
          subst h1
          subst h2
          subst h3
          refine ⟨?_, ?_, ?_⟩
          · unfold saleTotalSpec
            rw [hp, ← ht]
          · unfold saleProfitSpec
            rw [hp, ← htp]
          · refine List.Forall₂.cons ⟨rfl, rfl, rfl, product, hp, rfl, rfl, rfl, ?_⟩ hv
            exact le_of_not_lt hstock

theorem applyItems_nil (sale_status : String) (sid : Nat) (db : DB) :
    applyItems sale_status sid db [] = db := rfl

theorem applyItems_cons (sale_status : String) (sid : Nat) (db : DB)
    (v : ValidatedItem) (rest : List ValidatedItem) :
    applyItems sale_status sid db (v :: rest) =
      (let db1 :=
        if sale_status = "completed" then
          match db.products v.product_id with
          | some product =>
            db.setProductQuantity v.product_id (product.quantity - v.inventory_deduction)
          | none => db
        else db
      let db2 :=
        match db1.sales sid with
        | some sale =>
          db1.setSale sid { sale with sale_items := sale.sale_items ++ [v.toSaleItem] }
        | none => db1
      applyItems sale_status sid db2 rest) := rfl

theorem applyItems_step_sales (sale_status : String) (db : DB) (v : ValidatedItem) :
    (if sale_status = "completed" then
      match db.products v.product_id with
      | some product =>
        db.setProductQuantity v.product_id (product.quantity - v.inventory_deduction)
      | none => db
    else db).sales = db.sales := by
  split
  · cases db.products v.product_id with
    | none => rfl
    | some product => rfl
  · rfl

/-- STEP 4 appends one `SaleItem` row per validated item to the sale. -/
theorem applyItems_sales_at (validated : List ValidatedItem) (sale_status : String)
    (sid : Nat) (db : DB) (sale : Sale) (h : db.sales sid = some sale) :
    (applyItems sale_status sid db validated).sales sid =
      some { sale with
        sale_items := sale.sale_items ++ validated.map ValidatedItem.toSaleItem } := by
  induction validated generalizing db sale with
  | nil =>
    rw [applyItems_nil, h]
    cases sale
    simp only [List.map_nil, List.append_nil]
  | cons v rest ih =>
    rw [applyItems_cons]
    dsimp only []
    rw [applyItems_step_sales, h]
    dsimp only []
    have hstep : ((if sale_status = "completed" then
        match db.products v.product_id with
        | some product =>
          db.setProductQuantity v.product_id (product.quantity - v.inventory_deduction)
        | none => db
      else db).setSale sid
        { sale with sale_items := sale.sale_items ++ [v.toSaleItem] }).sales sid =
        some { sale with sale_items := sale.sale_items ++ [v.toSaleItem] } := by
      rw [setSale_sales, if_pos rfl]
    rw [ih _ _ hstep]
    cases sale
    simp only [List.map_cons, List.append_assoc, List.singleton_append]

theorem applyItems_sales_other (validated : List ValidatedItem) (sale_status : String)
    (sid : Nat) (db : DB) (j : Nat) (h : j ≠ sid) :
    (applyItems sale_status sid db validated).sales j = db.sales j := by
  induction validated generalizing db with
  | nil => rw [applyItems_nil]
  | cons v rest ih =>
    rw [applyItems_cons]
    dsimp only []
    rw [ih]
    cases hs : (if sale_status = "completed" then
        match db.products v.product_id with
        | some product =>
          db.setProductQuantity v.product_id (product.quantity - v.inventory_deduction)
        | none => db
      else db).sales sid with
    | none =>
      have := applyItems_step_sales sale_status db v
      rw [this] at hs ⊢
    | some sale2 =>
      rw [setSale_sales, if_neg h]
      have := applyItems_step_sales sale_status db v
      rw [this]

/-- STEP 4 never touches product rows when the sale is not completed
(`product.quantity` is only assigned under `if sale_status == 'completed'`). -/
theorem applyItems_products_of_ne (validated : List ValidatedItem) (sale_status : String)
    (sid : Nat) (db : DB) (h : sale_status ≠ "completed") :
    (applyItems sale_status sid db validated).products = db.products := by
  induction validated generalizing db with
  | nil => rw [applyItems_nil]
  | cons v rest ih =>
    rw [applyItems_cons]
    dsimp only []
    rw [if_neg h]
    cases hs : db.sales sid with
    | none => rw [ih]
    | some sale => rw [ih, setSale_products]

/-- STEP 4 leaves every product that no validated item references
unchanged. -/
theorem applyItems_products_other (validated : List ValidatedItem) (sale_status : String)
    (sid : Nat) (db : DB) (j : Nat) (h : ∀ v ∈ validated, v.product_id ≠ j) :
    (applyItems sale_status sid db validated).products j = db.products j := by
  induction validated generalizing db with
  | nil => rw [applyItems_nil]
  | cons v rest ih =>
    rw [applyItems_cons]
    dsimp only []
    rw [ih _ (fun x hx => h x (List.mem_cons_of_mem _ hx))]
    have hstep : ∀ dbx : DB,
        (match dbx.sales sid with
         | some sale =>
           dbx.setSale sid { sale with sale_items := sale.sale_items ++ [v.toSaleItem] }
         | none => dbx).products j = dbx.products j := by
      intro dbx
      cases dbx.sales sid with
      | none => rfl
      | some sale => rfl
    rw [hstep]
    split
    · cases hp : db.products v.product_id with
      | none => rfl
      | some product =>
        rw [setProductQuantity_products,
          if_neg (fun hc => h v (List.mem_cons_self _ _) hc.symm)]
    · rfl

theorem forall2_validated_pids (db : DB) (validated : List ValidatedItem)
    (items : List CartItem) (hv : List.Forall₂ (ValidatedOk db) validated items) :
    validated.map (fun v => v.product_id) = items.map (fun c => c.product_id) := by
  induction hv with
  | nil => rfl
  | cons h _ ih =>
    simp only [List.map_cons, ih, List.cons.injEq, and_true]
    exact h.1

/-- STEP 4 keeps every product quantity non-negative when no product occurs
twice among the validated items and every deduction passed the stock check
against the entry store. -/
theorem applyItems_nonneg (validated : List ValidatedItem) (sale_status : String)
    (sid : Nat) (db : DB)
    (hnodup : (validated.map (fun v => v.product_id)).Nodup)
    (hsuff : ∀ v ∈ validated, ∀ p, db.products v.product_id = some p →
      v.inventory_deduction ≤ p.quantity)
    (h0 : ∀ pid p, db.products pid = some p → 0 ≤ p.quantity) :
    ∀ pid p, (applyItems sale_status sid db validated).products pid = some p →
      0 ≤ p.quantity := by
  induction validated generalizing db with
  | nil =>
    rw [applyItems_nil]
    exact h0
  | cons v rest ih =>
    rw [applyItems_cons]
    dsimp only []
    rw [List.map_cons, List.nodup_cons] at hnodup
    have hrest_ne : ∀ x ∈ rest, x.product_id ≠ v.product_id := by
      intro x hx hc
      exact hnodup.1 (hc ▸ List.mem_map_of_mem (fun y => y.product_id) hx)
    set db1 := (if sale_status = "completed" then
        match db.products v.product_id with
        | some product =>
          db.setProductQuantity v.product_id (product.quantity - v.inventory_deduction)
        | none => db
      else db) with hdb1
    have hdb1_products : ∀ j, j ≠ v.product_id → db1.products j = db.products j := by
      intro j hj
      rw [hdb1]
      split
      · cases db.products v.product_id with
        | none => rfl
        | some product => rw [setProductQuantity_products, if_neg hj]
      · rfl
    have hdb1_nonneg : ∀ pid p, db1.products pid = some p → 0 ≤ p.quantity := by
      intro pid p hp
      by_cases hj : pid = v.product_id
      · subst hj
        rw [hdb1] at hp
        by_cases hc : sale_status = "completed"
        · rw [if_pos hc] at hp
          cases hq : db.products v.product_id with
          | none =>
            rw [hq] at hp
            exact h0 _ p hp
          | some product =>
            rw [hq, setProductQuantity_products, if_pos rfl, hq] at hp
            dsimp only [Option.map] at hp
            cases hp
            have := hsuff v (List.mem_cons_self _ _) product hq
            show (0 : ℚ) ≤ product.quantity - v.inventory_deduction
            linarith
        · rw [if_neg hc] at hp
          exact h0 _ p hp
      · rw [hdb1_products pid hj] at hp
        exact h0 pid p hp
    set db2 := (match db1.sales sid with
      | some sale =>
        db1.setSale sid { sale with sale_items := sale.sale_items ++ [v.toSaleItem] }
      | none => db1) with hdb2
    have hdb2_products : db2.products = db1.products := by
      rw [hdb2]
      cases db1.sales sid with
      | none => rfl
      | some sale => rfl
    apply ih db2 hnodup.2
    · intro x hx p hp
      rw [hdb2_products, hdb1_products x.product_id (hrest_ne x hx)] at hp
      exact hsuff x (List.mem_cons_of_mem _ hx) p hp
    · intro pid p hp
      rw [hdb2_products] at hp
      exact hdb1_nonneg pid p hp

/-- Endpoint-level case analysis of `checkout`: either nothing durable
changes and the response code is 400 or 403, or the request validated, one
commit happened, and the durable state is the staged sale (fresh or
continuing) with its items applied and its totals set. -/
theorem checkout_cases (req : CheckoutRequest) (user : UserCtx) (csid : Option Nat)
    (db : DB) :
    (∃ code msg, checkout req user csid db = (db, code, msg) ∧
      (code = 400 ∨ code = 403)) ∨
    (∃ total total_profit validated dbPre sid,
      validateItems db req.items = .ok (total, total_profit, validated) ∧
      checkout req user csid db =
        (setSaleTotals sid total total_profit
          (applyItems (saleStatusOf req) sid dbPre validated), 200, "success") ∧
      ((csid = none ∧ sid = db.next_sale_id ∧
          dbPre = insertNewSale user req (saleStatusOf req) (paymentMethodOf req) db) ∨
       (∃ sale, csid = some sid ∧ db.sales sid = some sale ∧ sale.status = "pending" ∧
          dbPre = resetContinuingSale sale sid req (saleStatusOf req) (paymentMethodOf req)
            (restoreSaleItems db sale.sale_items)))) := by
  rcases checkout_body_cases req user csid (DbSession.init db) with
    ⟨code, msg, hbody, hcode⟩ | ⟨msg, hbody, hval⟩ |
    ⟨total, total_profit, validated, dbPre, sid, hval, hbody, hpath⟩
  · refine Or.inl ⟨code, msg, ?_, hcode⟩
    unfold checkout
    rw [hbody]
    rfl
  · refine Or.inl ⟨400, msg, ?_, Or.inl rfl⟩
    unfold checkout
    rw [hbody]
    rfl
  · refine Or.inr ⟨total, total_profit, validated, dbPre, sid, hval, ?_, hpath⟩
    unfold checkout
    rw [hbody]

theorem update_restore_eq (store : Nat → Product) (sale : Sale) (new_status : String)
    (hold : sale.status = "completed")
    (hnew : new_status = "pending" ∨ new_status = "cancelled") :
    update_sale_status store sale new_status =
      some (restoreItems store sale.sale_items, new_status) := by
  have h1 : sale.status ≠ new_status := by
    rcases hnew with h | h <;> rw [hold, h] <;> decide
  unfold update_sale_status
  dsimp only []
  rw [if_pos h1, if_pos ⟨hold, hnew⟩]

theorem update_deduct_eq (store : Nat → Product) (sale : Sale) (new_status : String)
    (hold : sale.status = "pending" ∨ sale.status = "cancelled")
    (hnew : new_status = "completed") :
    update_sale_status store sale new_status =
      match deductItems store sale.sale_items with
      | some store2 => some (store2, new_status)
      | none => none := by
  have h1 : sale.status ≠ new_status := by
    rcases hold with h | h <;> rw [h, hnew] <;> decide
  have h2 : ¬(sale.status = "completed" ∧
      (new_status = "pending" ∨ new_status = "cancelled")) := by
    rintro ⟨hc, _⟩
    rcases hold with h | h <;> rw [h] at hc <;> exact absurd hc (by decide)
  unfold update_sale_status
  dsimp only []
  rw [if_pos h1, if_neg h2, if_pos ⟨hold, hnew⟩]

/-- Inversion of a committed `update_sale_status`: the new status was
stored, and the product store went through the restore loop, a successful
deduct loop, or was left alone. -/
theorem update_sale_status_inv (store : Nat → Product) (sale : Sale)
    (new_status : String) (store2 : Nat → Product) (st : String)
    (h : update_sale_status store sale new_status = some (store2, st)) :
    st = new_status ∧
    ((sale.status = "completed" ∧ (new_status = "pending" ∨ new_status = "cancelled") ∧
        sale.status ≠ new_status ∧ store2 = restoreItems store sale.sale_items) ∨
     ((sale.status = "pending" ∨ sale.status = "cancelled") ∧ new_status = "completed" ∧
        sale.status ≠ new_status ∧ deductItems store sale.sale_items = some store2) ∨
     store2 = store) := by
  unfold update_sale_status at h
  dsimp only [] at h
  by_cases h1 : sale.status ≠ new_status
  · rw [if_pos h1] at h
    by_cases h2 : sale.status = "completed" ∧
        (new_status = "pending" ∨ new_status = "cancelled")
    · rw [if_pos h2] at h
      simp only [Option.some.injEq, Prod.mk.injEq] at h
      exact ⟨h.2.symm, Or.inl ⟨h2.1, h2.2, h1, h.1.symm⟩⟩
    · rw [if_neg h2] at h
      by_cases h3 : (sale.status = "pending" ∨ sale.status = "cancelled") ∧
          new_status = "completed"
      · rw [if_pos h3] at h
        cases hd : deductItems store sale.sale_items with
        | none =>
          rw [hd] at h
          cases h
        | some store2x =>
          rw [hd] at h
          simp only [Option.some.injEq, Prod.mk.injEq] at h
          exact ⟨h.2.symm, Or.inr (Or.inl ⟨h3.1, h3.2, h1, by rw [h.1]⟩)⟩
      · rw [if_neg h3] at h
        simp only [Option.some.injEq, Prod.mk.injEq] at h
        exact ⟨h.2.symm, Or.inr (Or.inr h.1.symm)⟩
  · rw [if_neg h1] at h
    simp only [Option.some.injEq, Prod.mk.injEq] at h
    exact ⟨h.2.symm, Or.inr (Or.inr h.1.symm)⟩

/-! ### Claim theorems -/

/-- C1: for every product and non-negative integer quantity `q`,
`calculate_inventory_deduction` returns `q` packs for `'full'`, `0.5*q`
for `'half'`, `0.25*q` for `'quarter'`, `q/units_per_pack` for `'unit'`
when `units_per_pack > 0` (falling back to `q` when it is 0 — the column
is non-nullable — or otherwise not positive), and `q` for any other
unit-type string; arithmetic is exact in the rational model of
`Decimal`. -/
theorem C1_calculate_inventory_deduction (p : Product) (q : Nat) :
    p.calculate_inventory_deduction (q : ℚ) "full" = (q : ℚ) ∧
    p.calculate_inventory_deduction (q : ℚ) "half" = (q : ℚ) * (1 / 2) ∧
    p.calculate_inventory_deduction (q : ℚ) "quarter" = (q : ℚ) * (1 / 4) ∧
    (0 < p.units_per_pack →
      p.calculate_inventory_deduction (q : ℚ) "unit" = (q : ℚ) / (p.units_per_pack : ℚ)) ∧
    (p.units_per_pack ≤ 0 → p.calculate_inventory_deduction (q : ℚ) "unit" = (q : ℚ)) ∧
    (∀ unit_type, unit_type ≠ "full" → unit_type ≠ "half" → unit_type ≠ "quarter" →
      unit_type ≠ "unit" → p.calculate_inventory_deduction (q : ℚ) unit_type = (q : ℚ)) := by
  unfold Product.calculate_inventory_deduction
  refine ⟨?_, ?_, ?_, ?_, ?_, ?_⟩
  · rw [if_pos rfl]
  · rw [if_neg (by decide), if_pos rfl]
  · rw [if_neg (by decide), if_neg (by decide), if_pos rfl]
  · intro h
    rw [if_neg (by decide), if_neg (by decide), if_neg (by decide), if_pos rfl,
      if_pos ⟨h.ne', h⟩]
  · intro h
    rw [if_neg (by decide), if_neg (by decide), if_neg (by decide), if_pos rfl,
      if_neg (fun hc => absurd hc.2 (not_lt.mpr h))]
  · intro unit_type h1 h2 h3 h4
    rw [if_neg h1, if_neg h2, if_neg h3, if_neg h4]

/-- C1 witness: the theorem evaluated on `prodW` (2 units per pack) at
quantity 3, on the `'unit'` branch and an unknown unit-type string. -/
theorem C1_witness :
    prodW.calculate_inventory_deduction ((3 : Nat) : ℚ) "unit" =
      ((3 : Nat) : ℚ) / (prodW.units_per_pack : ℚ) ∧
    prodW.calculate_inventory_deduction ((3 : Nat) : ℚ) "gram" = ((3 : Nat) : ℚ) :=
  ⟨(C1_calculate_inventory_deduction prodW 3).2.2.2.1 (by decide),
   (C1_calculate_inventory_deduction prodW 3).2.2.2.2.2 "gram"
     (by decide) (by decide) (by decide) (by decide)⟩

/-- C9: for a sale item whose product has `units_per_pack > 0`, the
float-based `SaleItem.inventory_deducted` equals, as an exact number,
`Product.calculate_inventory_deduction` on the same quantity and unit
type. -/
theorem C9_inventory_deducted_agrees (item : SaleItem) (product : Product)
    (h : 0 < product.units_per_pack) :
    item.inventory_deducted product =
      product.calculate_inventory_deduction item.quantity item.unit_type := by
  unfold SaleItem.inventory_deducted Product.calculate_inventory_deduction
  by_cases h1 : item.unit_type = "unit"
  · rw [h1, if_pos rfl, if_neg (by decide), if_neg (by decide), if_neg (by decide),
      if_pos rfl, if_pos ⟨h.ne', h⟩]
  · by_cases h2 : item.unit_type = "half"
    · rw [h2, if_neg (by decide), if_pos rfl, if_neg (by decide), if_pos rfl]
    · by_cases h3 : item.unit_type = "quarter"
      · rw [h3, if_neg (by decide), if_neg (by decide), if_pos rfl, if_neg (by decide),
          if_neg (by decide), if_pos rfl]
      · by_cases h4 : item.unit_type = "full"
        · rw [h4, if_neg (by decide), if_neg (by decide), if_neg (by decide), if_pos rfl]
        · rw [if_neg h1, if_neg h2, if_neg h3, if_neg h4, if_neg h2, if_neg h3, if_neg h1]

/-- C9 witness: three retail units of `prodW` (2 units per pack) deduct
the same amount under both implementations. -/
theorem C9_witness :
    itemUnits.inventory_deducted prodW =
      prodW.calculate_inventory_deduction itemUnits.quantity itemUnits.unit_type :=
  C9_inventory_deducted_agrees itemUnits prodW (by decide)

/-- C6 counterexample: a product whose stored `unit_price` column holds
the decimal 0 — a set value — is priced by the fallback
`full_price / units_per_pack`, not by the stored 0, because the Python
guard `if self.unit_price:` is falsy at 0.  The claim "returns the stored
unit_price when one is set" is false at this input. -/
theorem C6_counterexample :
    prodZeroUnit.unit_price = some 0 ∧
    prodZeroUnit.get_price_for_unit "unit" =
      prodZeroUnit.full_price / (prodZeroUnit.units_per_pack : ℚ) ∧
    prodZeroUnit.get_price_for_unit "unit" ≠ 0 := by
  refine ⟨rfl, ?_, ?_⟩ <;> with_unfolding_all decide

/-- C6 amended: `get_price_for_unit` returns, for `'unit'`, the stored
`unit_price` when one is set and nonzero and otherwise
`full_price/units_per_pack`; for `'half'`, the stored `half_price` when
set and nonzero and otherwise `full_price/2`; for `'quarter'`, always
`full_price/4`; and for `'full'` or any other value, `full_price`. -/
theorem C6_get_price_for_unit (p : Product) :
    (∀ u, p.unit_price = some u → u ≠ 0 → p.get_price_for_unit "unit" = u) ∧
    ((p.unit_price = none ∨ p.unit_price = some 0) →
      p.get_price_for_unit "unit" = p.full_price / (p.units_per_pack : ℚ)) ∧
    (∀ v, p.half_price = some v → v ≠ 0 → p.get_price_for_unit "half" = v) ∧
    ((p.half_price = none ∨ p.half_price = some 0) →
      p.get_price_for_unit "half" = p.full_price / 2) ∧
    p.get_price_for_unit "quarter" = p.full_price / 4 ∧
    (∀ unit_type, unit_type ≠ "unit" → unit_type ≠ "half" → unit_type ≠ "quarter" →
      p.get_price_for_unit unit_type = p.full_price) := by
  unfold Product.get_price_for_unit Product.calculated_unit_price
  refine ⟨?_, ?_, ?_, ?_, ?_, ?_⟩
  · intro u hu hne
    rw [if_pos rfl, hu]
    dsimp only []
    rw [if_pos hne]
  · intro hu
    rw [if_pos rfl]
    rcases hu with hu | hu
    · rw [hu]
    · rw [hu]
      dsimp only []
      rw [if_neg (fun hc => hc rfl)]
  · intro v hv hne
    rw [if_neg (by decide), if_pos rfl, hv]
    dsimp only []
    rw [if_pos hne]
  · intro hv
    rw [if_neg (by decide), if_pos rfl]
    rcases hv with hv | hv
    · rw [hv]
    · rw [hv]
      dsimp only []
      rw [if_neg (fun hc => hc rfl)]
  · rw [if_neg (by decide), if_neg (by decide), if_pos rfl]
  · intro unit_type h1 h2 h3
    rw [if_neg h1, if_neg h2, if_neg h3]

/-- C6 witness: the amended pricing rules evaluated on `prodW`, whose
`unit_price` and `half_price` are unset. -/
theorem C6_witness :
    prodW.get_price_for_unit "unit" = prodW.full_price / (prodW.units_per_pack : ℚ) ∧
    prodW.get_price_for_unit "half" = prodW.full_price / 2 ∧
    prodW.get_price_for_unit "quarter" = prodW.full_price / 4 ∧
    prodW.get_price_for_unit "pack" = prodW.full_price :=
  ⟨(C6_get_price_for_unit prodW).2.1 (Or.inl rfl),
   (C6_get_price_for_unit prodW).2.2.2.1 (Or.inl rfl),
   (C6_get_price_for_unit prodW).2.2.2.2.1,
   (C6_get_price_for_unit prodW).2.2.2.2.2 "pack" (by decide) (by decide) (by decide)⟩

/-- C2: changing a sale's status from `'completed'` to `'pending'` or
`'cancelled'` commits, stores the new status, and increases every
product's quantity by exactly the total of
`calculate_inventory_deduction(item.quantity, item.unit_type)` over the
sale's items for that product. -/
theorem C2_restore_inventory (store : Nat → Product) (sale : Sale) (new_status : String)
    (hold : sale.status = "completed")
    (hnew : new_status = "pending" ∨ new_status = "cancelled") :
    update_sale_status store sale new_status =
      some (restoreItems store sale.sale_items, new_status) ∧
    ∀ pid, (restoreItems store sale.sale_items pid).quantity =
      (store pid).quantity + deductionSum store sale.sale_items pid :=
  ⟨update_restore_eq store sale new_status hold hnew,
   fun pid => restoreItems_quantity sale.sale_items store pid⟩

/-- C2 witness: reverting the completed sale `saleW` (two packs of product
0) to pending restores its deduction. -/
theorem C2_witness :
    update_sale_status pstoreW saleW "pending" =
      some (restoreItems pstoreW saleW.sale_items, "pending") ∧
    ∀ pid, (restoreItems pstoreW saleW.sale_items pid).quantity =
      (pstoreW pid).quantity + deductionSum pstoreW saleW.sale_items pid :=
  C2_restore_inventory pstoreW saleW "pending" rfl (Or.inl rfl)

/-- C3 counterexample: a pending sale listing the same product twice, one
pack each, against a stock of one pack.  Every item's product has quantity
`1 ≥ 1 =` its own deduction — the claim's hypothesis holds — yet the
handler rejects the completion (the loop checks the second item against
the already-decremented quantity), so the claim as stated is false. -/
theorem C3_counterexample :
    (∀ item ∈ saleDup.sale_items,
      itemDeduction pstoreW item ≤ (pstoreW item.product_id).quantity) ∧
    saleDup.status = "pending" ∧
    update_sale_status pstoreW saleDup "completed" = none :=
  ⟨by with_unfolding_all decide, rfl, by with_unfolding_all rfl⟩

/-- C3 amended: completing a `'pending'` or `'cancelled'` sale whose item
deductions are non-negative succeeds — decreasing each product's quantity
by exactly the total deduction its items charge — if and only if every
product's quantity covers that per-product total (not merely each item's
own deduction); otherwise it is rejected and nothing is committed. -/
theorem C3_complete_sale (store : Nat → Product) (sale : Sale) (new_status : String)
    (hold : sale.status = "pending" ∨ sale.status = "cancelled")
    (hnew : new_status = "completed")
    (hd : ∀ item ∈ sale.sale_items, 0 ≤ itemDeduction store item) :
    ((∀ item ∈ sale.sale_items,
        deductionSum store sale.sale_items item.product_id ≤
          (store item.product_id).quantity) →
      ∃ store2, update_sale_status store sale new_status = some (store2, "completed") ∧
        ∀ pid, (store2 pid).quantity =
          (store pid).quantity - deductionSum store sale.sale_items pid) ∧
    ((∃ item ∈ sale.sale_items,
        (store item.product_id).quantity <
          deductionSum store sale.sale_items item.product_id) →
      update_sale_status store sale new_status = none) := by
  constructor
  · intro hsuff
    obtain ⟨store2, hsome⟩ := deductItems_isSome sale.sale_items store hd hsuff
    refine ⟨store2, ?_, fun pid => deductItems_quantity _ _ _ hsome pid⟩
    rw [update_deduct_eq store sale new_status hold hnew, hsome, hnew]
  · rintro ⟨item, hmem, hlt⟩
    rw [update_deduct_eq store sale new_status hold hnew]
    cases hds : deductItems store sale.sale_items with
    | none => rfl
    | some store2 =>
      exfalso
      have hq := deductItems_quantity _ _ _ hds item.product_id
      have hnn := deductItems_nonneg _ _ _ hds item hmem
      rw [hq] at hnn
      linarith

/-- C3 witness: completing the pending one-item sale `saleOne` against one
pack of stock succeeds and deducts exactly one pack. -/
theorem C3_witness :
    ∃ store2, update_sale_status pstoreW saleOne "completed" =
      some (store2, "completed") ∧
      ∀ pid, (store2 pid).quantity =
        (pstoreW pid).quantity - deductionSum pstoreW saleOne.sale_items pid :=
  (C3_complete_sale pstoreW saleOne "completed" (Or.inl rfl) rfl
    (by with_unfolding_all decide)).1 (by with_unfolding_all decide)

/-- C7: a committed `update_sale_status` stores the requested status,
changes no product that none of the sale's items references, changes no
product column other than `quantity`, and for a transition between
`'pending'` and `'cancelled'` (either direction) or a submission that
keeps the status unchanged leaves the whole product store untouched. -/
theorem C7_frame (store : Nat → Product) (sale : Sale) (new_status : String)
    (store2 : Nat → Product) (st : String)
    (h : update_sale_status store sale new_status = some (store2, st)) :
    st = new_status ∧
    (∀ pid, (∀ item ∈ sale.sale_items, item.product_id ≠ pid) → store2 pid = store pid) ∧
    (∀ pid, sameButQty (store pid) (store2 pid)) ∧
    ((sale.status = new_status ∨
        ((sale.status = "pending" ∨ sale.status = "cancelled") ∧
         (new_status = "pending" ∨ new_status = "cancelled"))) →
      store2 = store) := by
  obtain ⟨hst, hcases⟩ := update_sale_status_inv store sale new_status store2 st h
  refine ⟨hst, ?_, ?_, ?_⟩
  · intro pid hpid
    rcases hcases with ⟨_, _, _, hr⟩ | ⟨_, _, _, hdz⟩ | hid
    · rw [hr]
      have h1 := restoreItems_quantity sale.sale_items store pid
      rw [deductionSum_eq_zero _ _ _ hpid, add_zero] at h1
      have h2 := sameButQty_eq_update (restoreItems_sameButQty sale.sale_items store pid)
      rw [h2, h1]
    · have h1 := deductItems_quantity _ _ _ hdz pid
      rw [deductionSum_eq_zero _ _ _ hpid, sub_zero] at h1
      have h2 := sameButQty_eq_update (deductItems_sameButQty _ _ _ hdz pid)
      rw [h2, h1]
    · rw [hid]
  · intro pid
    rcases hcases with ⟨_, _, _, hr⟩ | ⟨_, _, _, hdz⟩ | hid
    · rw [hr]
      exact restoreItems_sameButQty _ _ _
    · exact deductItems_sameButQty _ _ _ hdz pid
    · rw [hid]
      exact sameButQty_refl _
  · intro hcase
    rcases hcases with ⟨hc1, _, hc3, _⟩ | ⟨_, hc2, hc3, _⟩ | hid
    · exfalso
      rcases hcase with he | ⟨hp, _⟩
      · exact hc3 he
      · rcases hp with hp | hp <;> rw [hc1] at hp <;> exact absurd hp (by decide)
    · exfalso
      rcases hcase with he | ⟨_, hn⟩
      · exact hc3 he
      · rcases hn with hn | hn <;> rw [hc2] at hn <;> exact absurd hn (by decide)
    · rw [hid]

/-- C7 witness: re-labelling the pending sale `saleOne` as cancelled
touches no product at all. -/
theorem C7_witness :
    "cancelled" = "cancelled" ∧
    (∀ pid, (∀ item ∈ saleOne.sale_items, item.product_id ≠ pid) →
      pstoreW pid = pstoreW pid) ∧
    (∀ pid, sameButQty (pstoreW pid) (pstoreW pid)) ∧
    ((saleOne.status = "cancelled" ∨
        ((saleOne.status = "pending" ∨ saleOne.status = "cancelled") ∧
         ("cancelled" = "pending" ∨ "cancelled" = "cancelled"))) →
      pstoreW = pstoreW) :=
  C7_frame pstoreW saleOne "cancelled" pstoreW "cancelled" (by with_unfolding_all rfl)

theorem forall2_toSaleItem (db : DB) (validated : List ValidatedItem)
    (items : List CartItem) (hv : List.Forall₂ (ValidatedOk db) validated items) :
    List.Forall₂ (fun (si : SaleItem) (ci : CartItem) =>
      si.product_id = ci.product_id ∧ si.quantity = (ci.quantity : ℚ) ∧
      si.unit_type = ci.unit_type) (validated.map ValidatedItem.toSaleItem) items := by
  induction hv with
  | nil => exact List.Forall₂.nil
  | cons hh _ ih =>
    refine List.Forall₂.cons ⟨hh.1, ?_, hh.2.2.1⟩ ih
    show ((_ : ValidatedItem).quantity : ℚ) = _
    rw [hh.2.1]

/-- C4: when the body of the checkout `try` block raises (a missing
product or insufficient stock raise `ValueError` in STEP 1), the session is
rolled back — the durable database is exactly the one before the request,
so no sale row, sale-item row, or product-quantity change persists — and
the endpoint answers 400 with the error body, having committed zero times;
when the body finishes, the endpoint answers 200 having committed exactly
once, at the end. -/
theorem C4_checkout_rollback (req : CheckoutRequest) (user : UserCtx)
    (csid : Option Nat) (db : DB) :
    (∀ s msg, checkout_body req user csid (DbSession.init db) = .raised s msg →
      checkout req user csid db = (db, 400, msg) ∧ s.commits = 0) ∧
    (∀ s sid total total_profit st,
      checkout_body req user csid (DbSession.init db) =
        .committed s sid total total_profit st →
      checkout req user csid db = (s.durable, 200, "success") ∧
        s.commits = 1 ∧ s.durable = s.cur) := by
  rcases checkout_body_cases req user csid (DbSession.init db) with
    ⟨code, msg0, hbody, hcode⟩ | ⟨msg0, hbody, hval⟩ |
    ⟨total0, profit0, validated0, dbPre0, sid0, hval, hbody, hpath⟩
  · constructor
    · intro s msg h
      rw [hbody] at h
      exact absurd h (by simp)
    · intro s sid total total_profit st h
      rw [hbody] at h
      exact absurd h (by simp)
  · constructor
    · intro s msg h
      rw [hbody] at h
      injection h with h1 h2
      subst h1
      subst h2
      constructor
      · unfold checkout
        rw [hbody]
        rfl
      · rfl
    · intro s sid total total_profit st h
      rw [hbody] at h
      exact absurd h (by simp)
  · constructor
    · intro s msg h
      rw [hbody] at h
      exact absurd h (by simp)
    · intro s sid total total_profit st h
      rw [hbody] at h
      injection h with h1 h2 h3 h4 h5
      subst h1
      subst h2
      subst h3
      subst h4
      subst h5
      refine ⟨?_, rfl, rfl⟩
      unfold checkout
      rw [hbody]

/-- C4 witness: a checkout naming a product id with no product row raises
`ValueError('Product not found')`; nothing durable changes, the commit
count is zero, and the response is a 400 with the error text. -/
theorem C4_witness :
    checkout reqMissing userW none dbEmpty = (dbEmpty, 400, "Product not found") ∧
    (DbSession.init dbEmpty).commits = 0 :=
  (C4_checkout_rollback reqMissing userW none dbEmpty).1
    (DbSession.init dbEmpty) "Product not found" (by with_unfolding_all rfl)

/-- C5: a checkout that answers 200 stored a sale whose `total_amount` is
the exact sum over the cart of price-per-unit times quantity, and whose
`total_profit` is the exact sum of (price minus cost basis) times
quantity, with the cost basis of the source's STEP 1
(`purchase_price/units_per_pack`, `/2`, `/4`, or `purchase_price`). -/
theorem C5_sale_totals (req : CheckoutRequest) (user : UserCtx) (csid : Option Nat)
    (db db2 : DB) (msg : String) (h : checkout req user csid db = (db2, 200, msg)) :
    ∃ sid sale, db2.sales sid = some sale ∧
      sale.total_amount = saleTotalSpec db req.items ∧
      sale.total_profit = saleProfitSpec db req.items := by
  rcases checkout_cases req user csid db with
    ⟨code, msg0, hck, hcode⟩ |
    ⟨total, profit, validated, dbPre, sid, hval, hck, hpath⟩
  · exfalso
    rw [hck] at h
    have hc := congrArg (fun t : DB × Nat × String => t.2.1) h
    dsimp only [] at hc
    rcases hcode with rfl | rfl <;> exact absurd hc (by decide)
  · rw [hck] at h
    have hdb2 : db2 =
        setSaleTotals sid total profit
          (applyItems (saleStatusOf req) sid dbPre validated) :=
      (congrArg (fun t : DB × Nat × String => t.1) h).symm
    obtain ⟨ht, hp, hforall⟩ := validateItems_ok req.items db total profit validated hval
    have hsale0 : ∃ sale0, dbPre.sales sid = some sale0 := by
      rcases hpath with ⟨_, hsid, hdbPre⟩ | ⟨sale, _, hsales, hstatus, hdbPre⟩
      · rw [hdbPre, hsid]
        exact ⟨_, insertNewSale_sales_at user req _ _ db⟩
      · rw [hdbPre]
        exact ⟨_, resetContinuingSale_sales_at sale sid req _ _ _⟩
    obtain ⟨sale0, hs0⟩ := hsale0
    have happly := applyItems_sales_at validated (saleStatusOf req) sid dbPre sale0 hs0
    refine ⟨sid,
      { { sale0 with
          sale_items := sale0.sale_items ++ validated.map ValidatedItem.toSaleItem } with
        total_amount := total, total_profit := profit }, ?_, ht, hp⟩
    rw [hdb2, setSaleTotals_sales_at, happly]
    rfl

/-- C5 witness: the two-pack completed checkout `reqTwoPacks` against
`dbW` answers 200 and its sale carries the specification sums. -/
theorem C5_witness :
    ∃ sid sale, (checkout reqTwoPacks userW none dbW).1.sales sid = some sale ∧
      sale.total_amount = saleTotalSpec dbW reqTwoPacks.items ∧
      sale.total_profit = saleProfitSpec dbW reqTwoPacks.items :=
  C5_sale_totals reqTwoPacks userW none dbW (checkout reqTwoPacks userW none dbW).1
    (checkout reqTwoPacks userW none dbW).2.2 (by with_unfolding_all rfl)

/-- C10: a 200 checkout with requested status `'pending'` and no
continuing sale changes no product row at all, and creates the sale under
the fresh primary key with status `'pending'` and one sale-item row per
cart item (same product, quantity and unit type). -/
theorem C10_pending_checkout (req : CheckoutRequest) (user : UserCtx) (db db2 : DB)
    (msg : String) (hstatus : req.status = "pending")
    (h : checkout req user none db = (db2, 200, msg)) :
    db2.products = db.products ∧
    ∃ sale, db2.sales db.next_sale_id = some sale ∧ sale.status = "pending" ∧
      List.Forall₂ (fun (si : SaleItem) (ci : CartItem) =>
        si.product_id = ci.product_id ∧ si.quantity = (ci.quantity : ℚ) ∧
        si.unit_type = ci.unit_type) sale.sale_items req.items := by
  have hss : saleStatusOf req = "pending" := by
    unfold saleStatusOf
    rw [hstatus, if_pos (Or.inr rfl)]
  rcases checkout_cases req user none db with
    ⟨code, msg0, hck, hcode⟩ |
    ⟨total, profit, validated, dbPre, sid, hval, hck, hpath⟩
  · exfalso
    rw [hck] at h
    have hc := congrArg (fun t : DB × Nat × String => t.2.1) h
    dsimp only [] at hc
    rcases hcode with rfl | rfl <;> exact absurd hc (by decide)
  · rcases hpath with ⟨_, hsid, hdbPre⟩ | ⟨sale, hcs, _, _, _⟩
    swap
    · exact absurd hcs (by simp)
    rw [hck] at h
    have hdb2 : db2 =
        setSaleTotals sid total profit
          (applyItems (saleStatusOf req) sid dbPre validated) :=
      (congrArg (fun t : DB × Nat × String => t.1) h).symm
    obtain ⟨ht, hp, hforall⟩ := validateItems_ok req.items db total profit validated hval
    constructor
    · rw [hdb2, setSaleTotals_products, hss,
        applyItems_products_of_ne _ _ _ _ (by decide), hdbPre, insertNewSale_products]
    · have hs0 : dbPre.sales sid =
          some ⟨user.id, 0, 0, paymentMethodOf req, req.amount_paid, req.change_given,
            saleStatusOf req, []⟩ := by
        rw [hdbPre, hsid]
        exact insertNewSale_sales_at user req _ _ db
      have happly := applyItems_sales_at validated (saleStatusOf req) sid dbPre _ hs0
      refine ⟨{ { (⟨user.id, 0, 0, paymentMethodOf req, req.amount_paid,
            req.change_given, saleStatusOf req, []⟩ : Sale) with
          sale_items := ([] : List SaleItem) ++ validated.map ValidatedItem.toSaleItem } with
        total_amount := total, total_profit := profit }, ?_, hss, ?_⟩
      · rw [hdb2, ← hsid, setSaleTotals_sales_at, happly]
        rfl
      · show List.Forall₂ _ (([] : List SaleItem) ++ validated.map ValidatedItem.toSaleItem)
          req.items
        exact forall2_toSaleItem db validated req.items hforall

/-- C10 witness: the pending checkout `reqPending` against `dbW` answers
200, leaves the product map untouched and creates the pending sale with
its single item. -/
theorem C10_witness :
    (checkout reqPending userW none dbW).1.products = dbW.products ∧
    ∃ sale, (checkout reqPending userW none dbW).1.sales dbW.next_sale_id = some sale ∧
      sale.status = "pending" ∧
      List.Forall₂ (fun (si : SaleItem) (ci : CartItem) =>
        si.product_id = ci.product_id ∧ si.quantity = (ci.quantity : ℚ) ∧
        si.unit_type = ci.unit_type) sale.sale_items reqPending.items :=
  C10_pending_checkout reqPending userW dbW (checkout reqPending userW none dbW).1
    (checkout reqPending userW none dbW).2.2 rfl (by with_unfolding_all rfl)

theorem qtyGrew_some_right {o1 : Option Product} {p : Product}
    (h : qtyGrew o1 (some p)) :
    ∃ p0, o1 = some p0 ∧ sameButQty p0 p ∧ p0.quantity ≤ p.quantity := by
  cases o1 with
  | none => exact h.elim
  | some p0 => exact ⟨p0, rfl, h.1, h.2⟩

theorem forall2_mem_left {α β : Type} {R : α → β → Prop} {l1 : List α} {l2 : List β}
    (h : List.Forall₂ R l1 l2) : ∀ a ∈ l1, ∃ b ∈ l2, R a b := by
  induction h with
  | nil => intro a ha; cases ha
  | cons hh _ ih =>
    intro a ha
    rcases List.mem_cons.mp ha with rfl | ha2
    · exact ⟨_, List.mem_cons_self _ _, hh⟩
    · obtain ⟨b, hb, hr⟩ := ih a ha2
      exact ⟨b, List.mem_cons_of_mem _ hb, hr⟩

/-- C8 counterexample: a completed checkout whose cart lists the same
product in two lines, one pack each, against a stock of one pack.  Every
product quantity is non-negative before the request, STEP 1 checks each
line against the same undecremented quantity, and the committed state
holds quantity -1.  Non-negative stock is not an invariant of `checkout`
as the claim states it. -/
theorem C8_counterexample :
    (∀ pid p, dbOne.products pid = some p → 0 ≤ p.quantity) ∧
    ((checkout reqDup userW none dbOne).1.products 0).map Product.quantity =
      some (-1) ∧
    ¬ (0 : ℚ) ≤ (-1 : ℚ) := by
  refine ⟨?_, ?_, by decide⟩
  · intro pid p hp
    have hrw : dbOne.products pid = if pid = 0 then some prodOne else none := rfl
    rw [hrw] at hp
    by_cases h : pid = 0
    · rw [if_pos h] at hp
      cases hp
      decide
    · rw [if_neg h] at hp
      cases hp
  · with_unfolding_all decide

/-- C8 amended: non-negative stock is preserved by `update_sale_status`
whenever the sale's item deductions are non-negative, and by `checkout`
whenever additionally no product id occurs twice in the cart and the
stored sales' item deductions are non-negative (a cart listing one product
in two lines can drive its quantity negative, because STEP 1 checks each
line against the same undecremented quantity). -/
theorem C8_nonneg_stock :
    (∀ (store : Nat → Product) (sale : Sale) (new_status : String)
        (store2 : Nat → Product) (st : String),
      (∀ pid, 0 ≤ (store pid).quantity) →
      (∀ item ∈ sale.sale_items, 0 ≤ itemDeduction store item) →
      update_sale_status store sale new_status = some (store2, st) →
      ∀ pid, 0 ≤ (store2 pid).quantity) ∧
    (∀ (req : CheckoutRequest) (user : UserCtx) (csid : Option Nat) (db db2 : DB)
        (code : Nat) (msg : String),
      (∀ pid p, db.products pid = some p → 0 ≤ p.quantity) →
      (req.items.map (fun c => c.product_id)).Nodup →
      (∀ sid sale, db.sales sid = some sale →
        ∀ item ∈ sale.sale_items, 0 ≤ optDeduction db item) →
      checkout req user csid db = (db2, code, msg) →
      ∀ pid p, db2.products pid = some p → 0 ≤ p.quantity) := by
  constructor
  · intro store sale new_status store2 st h0 hd h pid
    obtain ⟨_, hcases⟩ := update_sale_status_inv store sale new_status store2 st h
    rcases hcases with ⟨_, _, _, hr⟩ | ⟨_, _, _, hdz⟩ | hid
    · rw [hr, restoreItems_quantity]
      have h1 := deductionSum_nonneg store sale.sale_items pid hd
      have h2 := h0 pid
      linarith
    · by_cases hmem : ∃ item ∈ sale.sale_items, item.product_id = pid
      · obtain ⟨item, hitem, hpid⟩ := hmem
        have := deductItems_nonneg _ _ _ hdz item hitem
        rw [hpid] at this
        exact this
      · push_neg at hmem
        have h1 := deductItems_quantity _ _ _ hdz pid
        rw [deductionSum_eq_zero _ _ _ hmem, sub_zero] at h1
        rw [h1]
        exact h0 pid
    · rw [hid]
      exact h0 pid
  · intro req user csid db db2 code msg h0 hnodup hsales hck pid p hp
    rcases checkout_cases req user csid db with
      ⟨code0, msg0, hck0, _⟩ |
      ⟨total, profit, validated, dbPre, sid, hval, hck0, hpath⟩
    · rw [hck0] at hck
      have hdb2 : db = db2 := congrArg (fun t : DB × Nat × String => t.1) hck
      rw [← hdb2] at hp
      exact h0 pid p hp
    · rw [hck0] at hck
      have hdb2 : db2 =
          setSaleTotals sid total profit
            (applyItems (saleStatusOf req) sid dbPre validated) :=
        (congrArg (fun t : DB × Nat × String => t.1) hck).symm
      obtain ⟨_, _, hforall⟩ := validateItems_ok req.items db total profit validated hval
      have hPre : ∀ j q, dbPre.products j = some q →
          ∃ p1, db.products j = some p1 ∧ p1.quantity ≤ q.quantity := by
        rcases hpath with ⟨_, _, hdbPre⟩ | ⟨sale, _, hsalesid, _, hdbPre⟩
        · intro j q hq
          rw [hdbPre, insertNewSale_products] at hq
          exact ⟨q, hq, le_refl _⟩
        · intro j q hq
          rw [hdbPre, resetContinuingSale_products] at hq
          have hg := restoreSaleItems_qtyGrew sale.sale_items db
            (hsales sid sale hsalesid) j
          rw [hq] at hg
          obtain ⟨p1, hp1, _, hle⟩ := qtyGrew_some_right hg
          exact ⟨p1, hp1, hle⟩
      have hsuff : ∀ v ∈ validated, ∀ q, dbPre.products v.product_id = some q →
          v.inventory_deduction ≤ q.quantity := by
        intro v hv q hq
        obtain ⟨ci, _, hok⟩ := forall2_mem_left hforall v hv
        obtain ⟨p0, hp0, _, _, _, hdle⟩ := hok.2.2.2
        obtain ⟨p1, hp1, hle2⟩ := hPre v.product_id q hq
        rw [hok.1, hp0] at hp1
        cases hp1
        linarith
      have h0Pre : ∀ j q, dbPre.products j = some q → 0 ≤ q.quantity := by
        intro j q hq
        obtain ⟨p1, hp1, hle⟩ := hPre j q hq
        exact le_trans (h0 j p1 hp1) hle
      have hnodup2 : (validated.map (fun v => v.product_id)).Nodup := by
        rw [forall2_validated_pids db validated req.items hforall]
        exact hnodup
      have happ := applyItems_nonneg validated (saleStatusOf req) sid dbPre
        hnodup2 hsuff h0Pre
      rw [hdb2, setSaleTotals_products] at hp
      exact happ pid p hp

/-- C8 witness: reverting the completed sale `saleW` to pending keeps
every quantity non-negative. -/
theorem C8_witness :
    ∀ pid, 0 ≤ (restoreItems pstoreW saleW.sale_items pid).quantity :=
  C8_nonneg_stock.1 pstoreW saleW "pending" (restoreItems pstoreW saleW.sale_items)
    "pending" (fun _ => show (0 : ℚ) ≤ prodOne.quantity by decide)
    (by with_unfolding_all decide)
    (by with_unfolding_all rfl)

end CLPOS
